import Mathlib

/-!
Verification of the `publish-registry` script of types-publisher: the
registry snapshot tag filter, the publish decision engine, and the
validation protocol, shallowly embedded as a trace-producing function.
-/

namespace TypesRegistry

/-- Modelled from the spec: a semantic version (major.minor.patch), as held by
`PublishedState` — the library type `Semver` of `lib/versions` is not part of
the given source. -/
structure Semver where
  major : Nat
  minor : Nat
  patch : Nat
deriving DecidableEq

/-- Modelled from the spec: the printed form of a semantic version. -/
def Semver.versionString (v : Semver) : String :=
  s!"{v.major}.{v.minor}.{v.patch}"

/-- Modelled from the spec: componentwise equality of semantic versions,
as used by `highestSemverVersion.equals(oldVersion)`. -/
def Semver.equals (a b : Semver) : Bool :=
  a.major == b.major && a.minor == b.minor && a.patch == b.patch

/-- A JavaScript object mapping distribution-tag names to version strings,
embedded as an association list with the object's key order. -/
abbrev Tags := List (String × String)

/-- Property access `tags[k]` on a `Tags` object: the value at the first
occurrence of key `k`, or `undefined` (here `none`). -/
def tagsGet (tags : Tags) (k : String) : Option String :=
  (tags.find? (fun p => p.1 == k)).map (fun p => p.2)

/-- Embedding of `filterTags` (source lines 180-190): keep an entry when its
tag is `"latest"` or its version differs from the version of the `"latest"`
tag (`tags[tag] !== latestVersion`, where a missing latest gives
`undefined`, unequal to every string). -/
def filterTags (tags : Tags) : Tags :=
  let latestVersion := tagsGet tags "latest"
  tags.filter (fun p => p.1 == "latest" || !(some p.2 == latestVersion))

def millisecondsPerDay : Int := 1000 * 60 * 60 * 24

/-- Embedding of `isAWeekAfter` (source lines 69-73): the difference between
the current time and the given time, in days (exact rational arithmetic in
place of JavaScript number division), must exceed 7. -/
def isAWeekAfter (nowMs timeMs : Int) : Bool :=
  let diff : ℚ := ((nowMs - timeMs : Int) : ℚ)
  let days : ℚ := diff / ((millisecondsPerDay : Int) : ℚ)
  decide (days > 7)

/-- Since a day has a positive number of milliseconds, `isAWeekAfter` is the
integer comparison of the difference against seven days' worth of
milliseconds. -/
theorem isAWeekAfter_spec (nowMs timeMs : Int) :
    isAWeekAfter nowMs timeMs = decide (7 * millisecondsPerDay < nowMs - timeMs) := by
  have hpos : (0 : ℚ) < ((millisecondsPerDay : Int) : ℚ) := by
    norm_num [millisecondsPerDay]
  simp only [isAWeekAfter, gt_iff_lt, decide_eq_decide, lt_div_iff₀ hpos]
  rw [show ((7 : ℚ) * ((millisecondsPerDay : Int) : ℚ))
        = (((7 * millisecondsPerDay : Int) : ℚ)) by push_cast; ring]
  exact Int.cast_lt

/-- A record of the typings data source (`TypingsData`), restricted to the
two fields this script reads: the registry lookup name and the display name
used as the snapshot key. -/
structure TypingsData where
  name : String
  fullEscapedNpmName : String
deriving DecidableEq

/-- Modelled from the spec: a package whose typings were retired
(`NotNeededPackage`); only its `name` is consulted here. -/
structure NotNeededPackage where
  name : String
deriving DecidableEq

/-- The `Registry` interface (source line 167): a mapping from package name
to that package's tag set, embedded as an association list in insertion
order. -/
structure Registry where
  entries : List (String × Tags)
deriving DecidableEq

/-- The key set of a registry's `entries` object. -/
def Registry.keys (r : Registry) : List String :=
  r.entries.map Prod.fst

/-- Embedding of `generateRegistry` (source lines 168-178): for each typing
whose npm info has a `dist-tags` object, record the filtered tags under the
typing's name; typings without tag data are omitted. -/
def generateRegistry (typings : List TypingsData)
    (npmInfo : String → Option Tags) : Registry :=
  { entries := typings.filterMap fun typing =>
      (npmInfo typing.fullEscapedNpmName).map fun tags =>
        (typing.name, filterTags tags) }

/-- The generated `package.json` object of `generatePackageJson`
(source lines 145-165), with its repository object flattened into two
string fields. -/
structure PackageManifest where
  name : String
  version : String
  description : String
  repositoryType : String
  repositoryUrl : String
  keywords : List String
  author : String
  license : String
  typesPublisherContentHash : String
deriving DecidableEq

/-- The constant `packageName` (source line 14). -/
def packageName : String := "types-registry"

/-- Embedding of `generatePackageJson` (source lines 145-165). -/
def generatePackageJson (version : String)
    (typesPublisherContentHash : String) : PackageManifest :=
  { name := packageName
    version := version
    description :=
      "A registry of TypeScript declaration file packages published within the @types scope."
    repositoryType := "git"
    repositoryUrl := "https://github.com/Microsoft/types-publisher.git"
    keywords := ["TypeScript", "declaration", "files", "types", "packages"]
    author := "Microsoft Corp."
    license := "MIT"
    typesPublisherContentHash := typesPublisherContentHash }

/-- The observable actions of one run, in order: an event trace entry for
each external effect the script performs. -/
inductive Event where
  /-- `NpmClient.create` with the given default distribution tag. -/
  | createClient (defaultTag : String)
  /-- One `fetchNpmInfo` registry query inside `generateRegistry`. -/
  | fetchInfo (pkg : String)
  /-- `emptyDir(registryOutputPath)` at the start of `generate`. -/
  | emptyOutput
  /-- `generate` writing `package.json` with the given manifest. -/
  | writeManifest (m : PackageManifest)
  /-- `generate` writing `index.json` with the given registry value. -/
  | writeIndex (r : Registry)
  /-- `generate` writing `README.md`. -/
  | writeReadme
  /-- `client.publish`: the upload, under the client's default tag. -/
  | publishUpload (uploadTag : String) (m : PackageManifest) (dry : Bool)
  /-- `sleep`: the fixed settling delay, in seconds. -/
  | sleepFor (seconds : Nat)
  /-- `installForValidate`: install `types-registry@next` into scratch. -/
  | install
  /-- `assertDirectoriesEqual` ignoring only `package.json`. -/
  | checkDirsFull
  /-- `assertDirectoriesEqual` ignoring `package.json` and `index.json`. -/
  | checkDirsSubset
  /-- `client.tag`: point `tagName` of package `pkg` at `version`. -/
  | tagVersion (pkg : String) (version : String) (tagName : String)
  /-- `writeLog` at the end of a successful run. -/
  | writeLogFile
deriving DecidableEq

/-- The ways a run aborts. -/
inductive Err where
  /-- `assert.equal(oldVersion.major, 0)` failed. -/
  | assertMajorFailed
  /-- `assert.equal(oldVersion.minor, 1)` failed. -/
  | assertMinorFailed
  /-- `assertDirectoriesEqual` reported a mismatch. -/
  | dirsNotEqual
  /-- `validateIsSubset` threw `Actual types-registry has unexpected key`. -/
  | unexpectedKey (key : String)
deriving DecidableEq

/-- A run's outcome: the trace of events it performed, and the error that
aborted it, if any. -/
abbrev Run := List Event × Option Err

/-- Sequence two runs: if the first aborts, the second never happens. -/
def seqRun (a b : Run) : Run :=
  match a.2 with
  | none => (a.1 ++ b.1, b.2)
  | some e => (a.1, some e)

/-- The external world of one run: the published state fetched by
`fetchAndProcessNpmInfo`, the current clock, the typings source, the
per-package npm info, oracles for the outcomes of the directory
comparisons and of the installed `index.json` read, the not-needed
packages, the content hash function (the composite
`computeHash(JSON.stringify(-))` of `util`, not part of the given source),
and the `dry` flag. -/
structure Env where
  oldVersion : Semver
  highestSemverVersion : Semver
  oldContentHash : String
  lastModifiedMs : Int
  nowMs : Int
  typings : List TypingsData
  npmInfo : String → Option Tags
  computeHash : Registry → String
  dirsEqualFull : Bool
  dirsEqualSubset : Bool
  actualIndexKeys : List String
  notNeeded : List NotNeededPackage
  dry : Bool

/-- Embedding of `validate` (source lines 123-128): install, then compare
the output directory against the installed tree ignoring only
`package.json`; the comparison's verdict is the `dirsEqualFull` oracle. -/
def validateRun (dirsEqualFull : Bool) : Run :=
  ([Event.install, Event.checkDirsFull],
   if dirsEqualFull then none else some Err.dirsNotEqual)

/-- The loop of `validateIsSubset` (source lines 138-142): the first key of
the installed `index.json` that is neither a key of the freshly generated
index nor the name of a not-needed package, if any. -/
def findUnexpectedKey (actualKeys expectedKeys : List String)
    (notNeeded : List NotNeededPackage) : Option String :=
  actualKeys.find? fun key =>
    !expectedKeys.contains key && !notNeeded.any fun p => p.name == key

/-- Embedding of `validateIsSubset` (source lines 130-143): install, compare
directories ignoring `package.json` and `index.json` (verdict
`dirsEqualSubset`), then throw on the first unexpected key of the installed
index (`actualKeys`) relative to the generated one (`expectedKeys`). -/
def validateIsSubsetRun (dirsEqualSubset : Bool)
    (actualKeys expectedKeys : List String)
    (notNeeded : List NotNeededPackage) : Run :=
  let evs := [Event.install, Event.checkDirsSubset]
  if dirsEqualSubset then
    match findUnexpectedKey actualKeys expectedKeys notNeeded with
    | some key => (evs, some (Err.unexpectedKey key))
    | none => (evs, none)
  else (evs, some Err.dirsNotEqual)

/-- Embedding of `publish` (source lines 94-101): upload under the client's
default tag `"next"`, sleep 20 seconds, validate, and only then tag the new
version as `"latest"`. -/
def publishRun (m : PackageManifest) (version : String) (dry : Bool)
    (dirsEqualFull : Bool) : Run :=
  seqRun ([Event.publishUpload "next" m dry, Event.sleepFor 20], none)
    (seqRun (validateRun dirsEqualFull)
      ([Event.tagVersion packageName version "latest"], none))

/-- Embedding of `generate` (source lines 75-92): empty the output
directory, then write `package.json`, `index.json` and `README.md`. -/
def generateTrace (m : PackageManifest) (r : Registry) : List Event :=
  [Event.emptyOutput, Event.writeManifest m, Event.writeIndex r,
   Event.writeReadme]

/-- The new version string of source line 45: `0.1.${oldVersion.patch + 1}`. -/
def newVersionString (oldVersion : Semver) : String :=
  s!"0.1.{oldVersion.patch + 1}"

/-- The registry this run generates (source line 40). -/
def envRegistry (env : Env) : Registry :=
  generateRegistry env.typings env.npmInfo

/-- The content hash this run computes for the generated registry
(source line 41). -/
def newContentHash (env : Env) : String :=
  env.computeHash (envRegistry env)

/-- The manifest this run generates (source line 46). -/
def mainManifest (env : Env) : PackageManifest :=
  generatePackageJson (newVersionString env.oldVersion) (newContentHash env)

/-- The trace of every run that passes the staleness guard and both
version asserts, up to the branch decision: client creation, the snapshot
fetches, and the `generate` bundle regeneration. -/
def setupTrace (env : Env) : List Event :=
  Event.createClient "next"
    :: env.typings.map (fun typing => Event.fetchInfo typing.fullEscapedNpmName)
    ++ generateTrace (mainManifest env) (envRegistry env)

/-- Embedding of `main` (source lines 25-66): the staleness guard, client
creation, snapshot build and hash, the two version asserts, bundle
regeneration, then the three-way branch — promote when the highest tagged
version differs from the published one, publish when the hashes differ,
otherwise validate only — then the log write. -/
def main (env : Env) : Run :=
  if !isAWeekAfter env.nowMs env.lastModifiedMs then ([], none)
  else
    let pre := Event.createClient "next"
      :: env.typings.map fun typing => Event.fetchInfo typing.fullEscapedNpmName
    let registry := envRegistry env
    let hash := env.computeHash registry
    if env.oldVersion.major ≠ 0 then (pre, some Err.assertMajorFailed)
    else if env.oldVersion.minor ≠ 1 then (pre, some Err.assertMinorFailed)
    else
      let newVersion := newVersionString env.oldVersion
      let packageJson := generatePackageJson newVersion hash
      let afterGenerate : Run := (pre ++ generateTrace packageJson registry, none)
      let branch : Run :=
        if !(env.highestSemverVersion.equals env.oldVersion) then
          seqRun
            (validateIsSubsetRun env.dirsEqualSubset env.actualIndexKeys
              registry.keys env.notNeeded)
            ([Event.tagVersion packageName env.highestSemverVersion.versionString
                "latest"], none)
        else if env.oldContentHash ≠ hash then
          publishRun packageJson newVersion env.dry env.dirsEqualFull
        else
          validateRun env.dirsEqualFull
      seqRun (seqRun afterGenerate branch) ([Event.writeLogFile], none)

/-- A sample typing record for concrete runs. -/
def sampleTyping : TypingsData :=
  { name := "abbrev", fullEscapedNpmName := "abbrev" }

/-- A sample tag object with a latest entry, one redundant alias of it and
one distinct tag. -/
def sampleTags : Tags := [("latest", "1.0.0"), ("next", "1.0.0"), ("beta", "2.0.0")]

/-- A sample tag object with no latest entry. -/
def noLatestTags : Tags := [("next", "1.0.0"), ("beta", "1.0.0")]

/-- A base environment: version 0.1.5 published and tagged latest eight
days ago with content hash "abc", an unchanged snapshot, and clean
directory comparisons. -/
def baseEnv : Env :=
  { oldVersion := ⟨0, 1, 5⟩
    highestSemverVersion := ⟨0, 1, 5⟩
    oldContentHash := "abc"
    lastModifiedMs := 0
    nowMs := 8 * 86400000
    typings := [sampleTyping]
    npmInfo := fun _ => some sampleTags
    computeHash := fun _ => "abc"
    dirsEqualFull := true
    dirsEqualSubset := true
    actualIndexKeys := ["abbrev"]
    notNeeded := []
    dry := false }

/-- The base environment only three days after the last publish. -/
def staleEnv : Env := { baseEnv with nowMs := 3 * 86400000 }

/-- The base environment with a changed snapshot: the fresh hash is "xyz". -/
def publishEnv : Env := { baseEnv with computeHash := fun _ => "xyz" }

/-- The base environment where 0.1.6 was uploaded but never promoted. -/
def promoteEnv : Env := { baseEnv with highestSemverVersion := ⟨0, 1, 6⟩ }

/-- The base environment after someone manually published version 0.2.5. -/
def badMinorEnv : Env :=
  { baseEnv with oldVersion := ⟨0, 2, 5⟩, highestSemverVersion := ⟨0, 2, 5⟩ }

/-- Boolean componentwise version equality agrees with equality of
`Semver` values. -/
theorem Semver.equals_iff {a b : Semver} : a.equals b = true ↔ a = b := by
  cases a; cases b
  simp [Semver.equals, and_assoc]

/-- Subset validation always performs exactly the install and the
relaxed directory comparison, whatever its verdict. -/
theorem validateIsSubsetRun_fst (d : Bool) (a e : List String)
    (n : List NotNeededPackage) :
    (validateIsSubsetRun d a e n).1 = [Event.install, Event.checkDirsSubset] := by
  cases d
  · rfl
  · cases h : findUnexpectedKey a e n <;> simp [validateIsSubsetRun, h]

/-- A stale published state short-circuits the whole run. -/
theorem main_stale (env : Env)
    (h : isAWeekAfter env.nowMs env.lastModifiedMs = false) :
    main env = ([], none) := by
  simp [main, h]

/-- A failed major-version assert aborts right after the snapshot build. -/
theorem main_assertMajor (env : Env)
    (hw : isAWeekAfter env.nowMs env.lastModifiedMs = true)
    (hmaj : env.oldVersion.major ≠ 0) :
    main env = (Event.createClient "next"
      :: env.typings.map (fun typing => Event.fetchInfo typing.fullEscapedNpmName),
      some Err.assertMajorFailed) := by
  simp [main, hw, hmaj]

/-- A failed minor-version assert aborts right after the snapshot build. -/
theorem main_assertMinor (env : Env)
    (hw : isAWeekAfter env.nowMs env.lastModifiedMs = true)
    (hmaj : env.oldVersion.major = 0)
    (hmin : env.oldVersion.minor ≠ 1) :
    main env = (Event.createClient "next"
      :: env.typings.map (fun typing => Event.fetchInfo typing.fullEscapedNpmName),
      some Err.assertMinorFailed) := by
  simp [main, hw, hmaj, hmin]

/-- In the promote branch, a clean subset validation leads to exactly the
install, the relaxed comparison, the tagging of the highest version as
latest, and the log write. -/
theorem main_promote_ok (env : Env)
    (hw : isAWeekAfter env.nowMs env.lastModifiedMs = true)
    (hmaj : env.oldVersion.major = 0) (hmin : env.oldVersion.minor = 1)
    (heq : env.highestSemverVersion.equals env.oldVersion = false)
    (hvr : (validateIsSubsetRun env.dirsEqualSubset env.actualIndexKeys
      (envRegistry env).keys env.notNeeded).2 = none) :
    main env = (setupTrace env ++
      [Event.install, Event.checkDirsSubset,
       Event.tagVersion packageName env.highestSemverVersion.versionString "latest",
       Event.writeLogFile], none) := by
  have hp : validateIsSubsetRun env.dirsEqualSubset env.actualIndexKeys
      (envRegistry env).keys env.notNeeded
      = ([Event.install, Event.checkDirsSubset], none) :=
    Prod.ext (validateIsSubsetRun_fst _ _ _ _) hvr
  simp [main, hw, hmaj, hmin, heq, hp, seqRun, setupTrace, mainManifest,
    newContentHash, newVersionString]

/-- In the promote branch, a failed subset validation aborts the run right
after the relaxed comparison, with no tagging. -/
theorem main_promote_err (env : Env) (e : Err)
    (hw : isAWeekAfter env.nowMs env.lastModifiedMs = true)
    (hmaj : env.oldVersion.major = 0) (hmin : env.oldVersion.minor = 1)
    (heq : env.highestSemverVersion.equals env.oldVersion = false)
    (hvr : (validateIsSubsetRun env.dirsEqualSubset env.actualIndexKeys
      (envRegistry env).keys env.notNeeded).2 = some e) :
    main env = (setupTrace env ++ [Event.install, Event.checkDirsSubset],
      some e) := by
  have hp : validateIsSubsetRun env.dirsEqualSubset env.actualIndexKeys
      (envRegistry env).keys env.notNeeded
      = ([Event.install, Event.checkDirsSubset], some e) :=
    Prod.ext (validateIsSubsetRun_fst _ _ _ _) hvr
  simp [main, hw, hmaj, hmin, heq, hp, seqRun, setupTrace, mainManifest,
    newContentHash, newVersionString]

/-- In the publish branch, a clean full validation leads to exactly the
upload, the settling sleep, the install, the full comparison, the tagging
of the new version as latest, and the log write, in that order. -/
theorem main_publish_ok (env : Env)
    (hw : isAWeekAfter env.nowMs env.lastModifiedMs = true)
    (hmaj : env.oldVersion.major = 0) (hmin : env.oldVersion.minor = 1)
    (heq : env.highestSemverVersion.equals env.oldVersion = true)
    (hhash : env.oldContentHash ≠ newContentHash env)
    (hfull : env.dirsEqualFull = true) :
    main env = (setupTrace env ++
      [Event.publishUpload "next" (mainManifest env) env.dry,
       Event.sleepFor 20, Event.install, Event.checkDirsFull,
       Event.tagVersion packageName (newVersionString env.oldVersion) "latest",
       Event.writeLogFile], none) := by
  have hhash' : env.oldContentHash ≠ env.computeHash (envRegistry env) := hhash
  simp [main, hw, hmaj, hmin, heq, hhash', hfull, publishRun, validateRun,
    seqRun, setupTrace, mainManifest, newContentHash]

/-- In the publish branch, a failed full validation aborts the run right
after the comparison: the upload happened but latest was never tagged. -/
theorem main_publish_fail (env : Env)
    (hw : isAWeekAfter env.nowMs env.lastModifiedMs = true)
    (hmaj : env.oldVersion.major = 0) (hmin : env.oldVersion.minor = 1)
    (heq : env.highestSemverVersion.equals env.oldVersion = true)
    (hhash : env.oldContentHash ≠ newContentHash env)
    (hfull : env.dirsEqualFull = false) :
    main env = (setupTrace env ++
      [Event.publishUpload "next" (mainManifest env) env.dry,
       Event.sleepFor 20, Event.install, Event.checkDirsFull],
      some Err.dirsNotEqual) := by
  have hhash' : env.oldContentHash ≠ env.computeHash (envRegistry env) := hhash
  simp [main, hw, hmaj, hmin, heq, hhash', hfull, publishRun, validateRun,
    seqRun, setupTrace, mainManifest, newContentHash]

/-- In the no-op branch, a clean full validation leads to exactly the
install, the full comparison and the log write. -/
theorem main_noop_ok (env : Env)
    (hw : isAWeekAfter env.nowMs env.lastModifiedMs = true)
    (hmaj : env.oldVersion.major = 0) (hmin : env.oldVersion.minor = 1)
    (heq : env.highestSemverVersion.equals env.oldVersion = true)
    (hhash : env.oldContentHash = newContentHash env)
    (hfull : env.dirsEqualFull = true) :
    main env = (setupTrace env ++
      [Event.install, Event.checkDirsFull, Event.writeLogFile], none) := by
  have hhash' : env.oldContentHash = env.computeHash (envRegistry env) := hhash
  simp [main, hw, hmaj, hmin, heq, hhash', hfull, validateRun, seqRun,
    setupTrace, mainManifest, newContentHash]

/-- In the no-op branch, a failed full validation aborts the run right
after the comparison. -/
theorem main_noop_fail (env : Env)
    (hw : isAWeekAfter env.nowMs env.lastModifiedMs = true)
    (hmaj : env.oldVersion.major = 0) (hmin : env.oldVersion.minor = 1)
    (heq : env.highestSemverVersion.equals env.oldVersion = true)
    (hhash : env.oldContentHash = newContentHash env)
    (hfull : env.dirsEqualFull = false) :
    main env = (setupTrace env ++ [Event.install, Event.checkDirsFull],
      some Err.dirsNotEqual) := by
  have hhash' : env.oldContentHash = env.computeHash (envRegistry env) := hhash
  simp [main, hw, hmaj, hmin, heq, hhash', hfull, validateRun, seqRun,
    setupTrace, mainManifest, newContentHash]

/-- No tagging happens during setup: client creation, snapshot fetches and
bundle regeneration are not tag operations. -/
theorem tagVersion_not_mem_setupTrace (env : Env) (p v t : String) :
    Event.tagVersion p v t ∉ setupTrace env := by
  simp [setupTrace, generateTrace]

/-- No upload happens during setup. -/
theorem publishUpload_not_mem_setupTrace (env : Env) (tag : String)
    (m : PackageManifest) (d : Bool) :
    Event.publishUpload tag m d ∉ setupTrace env := by
  simp [setupTrace, generateTrace]

/-- The manifest is always written during setup. -/
theorem writeManifest_mem_setupTrace (env : Env) :
    Event.writeManifest (mainManifest env) ∈ setupTrace env := by
  simp [setupTrace, generateTrace]

/-- C1: in the publish branch (old hash differs from the new hash, with the
highest tagged version equal to the published one) the run uploads under
the non-default tag "next", sleeps the fixed 20-second settling delay,
installs and runs the full comparison ignoring only the manifest file, and
tags the new version as "latest" only after — and only if — that
validation succeeds; on a failed validation the run aborts and nothing is
ever tagged "latest". -/
theorem publish_branch_ordering (env : Env)
    (hweek : 7 * millisecondsPerDay < env.nowMs - env.lastModifiedMs)
    (hmaj : env.oldVersion.major = 0) (hmin : env.oldVersion.minor = 1)
    (hsame : env.highestSemverVersion = env.oldVersion)
    (hhash : env.oldContentHash ≠ newContentHash env) :
    main env = (setupTrace env ++
        [Event.publishUpload "next" (mainManifest env) env.dry,
         Event.sleepFor 20, Event.install, Event.checkDirsFull] ++
        (if env.dirsEqualFull then
          [Event.tagVersion packageName (newVersionString env.oldVersion) "latest",
           Event.writeLogFile]
         else []),
      if env.dirsEqualFull then none else some Err.dirsNotEqual) ∧
    (env.dirsEqualFull = false →
      ∀ p v t, Event.tagVersion p v t ∉ (main env).1) := by
  have hw : isAWeekAfter env.nowMs env.lastModifiedMs = true := by
    rw [isAWeekAfter_spec]; exact decide_eq_true hweek
  have heq : env.highestSemverVersion.equals env.oldVersion = true :=
    Semver.equals_iff.mpr hsame
  constructor
  · cases hfull : env.dirsEqualFull
    · rw [main_publish_fail env hw hmaj hmin heq hhash hfull]; simp
    · rw [main_publish_ok env hw hmaj hmin heq hhash hfull]; simp
  · intro hfull p v t
    rw [main_publish_fail env hw hmaj hmin heq hhash hfull]
    simp [tagVersion_not_mem_setupTrace env p v t]

/-- Witness for C1: the concrete changed-snapshot run follows the
upload, sleep, validate, tag order and succeeds. -/
theorem publish_branch_ordering_witness :
    main publishEnv = (setupTrace publishEnv ++
        [Event.publishUpload "next" (mainManifest publishEnv) publishEnv.dry,
         Event.sleepFor 20, Event.install, Event.checkDirsFull] ++
        (if publishEnv.dirsEqualFull then
          [Event.tagVersion packageName (newVersionString publishEnv.oldVersion)
             "latest", Event.writeLogFile]
         else []),
      if publishEnv.dirsEqualFull then none else some Err.dirsNotEqual) :=
  (publish_branch_ordering publishEnv (by decide) rfl rfl rfl (by decide)).1

/-- C2: when the highest tagged version differs from the published one, the
run never uploads: no publish event appears in any outcome; on a clean
subset validation it tags exactly the existing highest version as
"latest", and when subset validation throws, no tag operation happens at
all. -/
theorem promote_branch_no_upload (env : Env)
    (hweek : 7 * millisecondsPerDay < env.nowMs - env.lastModifiedMs)
    (hmaj : env.oldVersion.major = 0) (hmin : env.oldVersion.minor = 1)
    (hdiff : env.highestSemverVersion ≠ env.oldVersion) :
    (∀ tag m d, Event.publishUpload tag m d ∉ (main env).1) ∧
    ((validateIsSubsetRun env.dirsEqualSubset env.actualIndexKeys
        (envRegistry env).keys env.notNeeded).2 = none →
      main env = (setupTrace env ++
        [Event.install, Event.checkDirsSubset,
         Event.tagVersion packageName env.highestSemverVersion.versionString
           "latest",
         Event.writeLogFile], none)) ∧
    (∀ e, (validateIsSubsetRun env.dirsEqualSubset env.actualIndexKeys
        (envRegistry env).keys env.notNeeded).2 = some e →
      ∀ p v t, Event.tagVersion p v t ∉ (main env).1) := by
  have hw : isAWeekAfter env.nowMs env.lastModifiedMs = true := by
    rw [isAWeekAfter_spec]; exact decide_eq_true hweek
  have heq : env.highestSemverVersion.equals env.oldVersion = false := by
    cases h : env.highestSemverVersion.equals env.oldVersion
    · rfl
    · exact absurd (Semver.equals_iff.mp h) hdiff
  refine ⟨?_, ?_, ?_⟩
  · intro tag m d
    cases hvr : (validateIsSubsetRun env.dirsEqualSubset env.actualIndexKeys
        (envRegistry env).keys env.notNeeded).2
    · rw [main_promote_ok env hw hmaj hmin heq hvr]
      simp [publishUpload_not_mem_setupTrace env tag m d]
    · rw [main_promote_err env _ hw hmaj hmin heq hvr]
      simp [publishUpload_not_mem_setupTrace env tag m d]
  · intro hvr
    exact main_promote_ok env hw hmaj hmin heq hvr
  · intro e hvr p v t
    rw [main_promote_err env e hw hmaj hmin heq hvr]
    simp [tagVersion_not_mem_setupTrace env p v t]

/-- Witness for C2: the concrete unpromoted-0.1.6 run performs no upload. -/
theorem promote_branch_no_upload_witness :
    Event.publishUpload "next" (mainManifest promoteEnv) promoteEnv.dry
      ∉ (main promoteEnv).1 :=
  (promote_branch_no_upload promoteEnv (by decide) rfl rfl (by decide)).1
    "next" (mainManifest promoteEnv) promoteEnv.dry

/-- C3: when the old hash differs from the newly computed one, the version
this run generates (and uploads, whenever the publish branch is taken) is
exactly the old version with the patch component incremented, and the
generated manifest embeds the newly computed content hash in its
`typesPublisherContentHash` field. -/
theorem new_version_is_patch_bump (env : Env)
    (hweek : 7 * millisecondsPerDay < env.nowMs - env.lastModifiedMs)
    (hmaj : env.oldVersion.major = 0) (hmin : env.oldVersion.minor = 1)
    (hhash : env.oldContentHash ≠ newContentHash env) :
    (mainManifest env).version = s!"0.1.{env.oldVersion.patch + 1}" ∧
    (mainManifest env).typesPublisherContentHash = newContentHash env ∧
    Event.writeManifest (mainManifest env) ∈ (main env).1 ∧
    (env.highestSemverVersion = env.oldVersion →
      Event.publishUpload "next" (mainManifest env) env.dry ∈ (main env).1) := by
  have hw : isAWeekAfter env.nowMs env.lastModifiedMs = true := by
    rw [isAWeekAfter_spec]; exact decide_eq_true hweek
  refine ⟨rfl, rfl, ?_, ?_⟩
  · cases hb : env.highestSemverVersion.equals env.oldVersion
    · cases hvr : (validateIsSubsetRun env.dirsEqualSubset env.actualIndexKeys
          (envRegistry env).keys env.notNeeded).2
      · rw [main_promote_ok env hw hmaj hmin hb hvr]
        simp [writeManifest_mem_setupTrace env]
      · rw [main_promote_err env _ hw hmaj hmin hb hvr]
        simp [writeManifest_mem_setupTrace env]
    · cases hfull : env.dirsEqualFull
      · rw [main_publish_fail env hw hmaj hmin hb hhash hfull]
        simp [writeManifest_mem_setupTrace env]
      · rw [main_publish_ok env hw hmaj hmin hb hhash hfull]
        simp [writeManifest_mem_setupTrace env]
  · intro hsame
    have heq : env.highestSemverVersion.equals env.oldVersion = true :=
      Semver.equals_iff.mpr hsame
    cases hfull : env.dirsEqualFull
    · rw [main_publish_fail env hw hmaj hmin heq hhash hfull]; simp
    · rw [main_publish_ok env hw hmaj hmin heq hhash hfull]; simp

/-- Witness for C3: the concrete changed-snapshot run uploads its
regenerated manifest. -/
theorem new_version_is_patch_bump_witness :
    Event.publishUpload "next" (mainManifest publishEnv) publishEnv.dry
      ∈ (main publishEnv).1 :=
  (new_version_is_patch_bump publishEnv (by decide) rfl rfl (by decide)).2.2.2 rfl

/-- C4: when the published version's major is not 0 or its minor is not 1,
the run aborts with the corresponding assertion error and performs no
upload, no tag, no install (so neither validation), and no output
regeneration. -/
theorem version_precondition_abort (env : Env)
    (hweek : 7 * millisecondsPerDay < env.nowMs - env.lastModifiedMs)
    (hviol : env.oldVersion.major ≠ 0 ∨ env.oldVersion.minor ≠ 1) :
    ((main env).2 = some Err.assertMajorFailed ∨
      (main env).2 = some Err.assertMinorFailed) ∧
    (∀ tag m d, Event.publishUpload tag m d ∉ (main env).1) ∧
    (∀ p v t, Event.tagVersion p v t ∉ (main env).1) ∧
    Event.install ∉ (main env).1 ∧
    Event.checkDirsFull ∉ (main env).1 ∧
    Event.checkDirsSubset ∉ (main env).1 ∧
    Event.emptyOutput ∉ (main env).1 := by
  have hw : isAWeekAfter env.nowMs env.lastModifiedMs = true := by
    rw [isAWeekAfter_spec]; exact decide_eq_true hweek
  by_cases hmaj : env.oldVersion.major = 0
  · have hmin : env.oldVersion.minor ≠ 1 :=
      hviol.resolve_left (not_not_intro hmaj)
    rw [main_assertMinor env hw hmaj hmin]
    simp
  · rw [main_assertMajor env hw hmaj]
    simp

/-- Witness for C4: the concrete 0.2.5 run aborts on an assert. -/
theorem version_precondition_abort_witness :
    (main badMinorEnv).2 = some Err.assertMajorFailed ∨
      (main badMinorEnv).2 = some Err.assertMinorFailed :=
  (version_precondition_abort badMinorEnv (by decide) (Or.inr (by decide))).1

/-- C5: with the relaxed directory comparison passing, subset validation
succeeds exactly when every key of the installed index is either a key of
the freshly generated index or the name of a not-needed package; when it
aborts, the error names a key of the installed index that is absent from
the fresh index and explained by no not-needed package, and any abort is
such a named-key error — keys only present in the fresh index never cause
one. -/
theorem subset_validation_unexpected_key
    (actualKeys expectedKeys : List String)
    (notNeeded : List NotNeededPackage) :
    ((validateIsSubsetRun true actualKeys expectedKeys notNeeded).2 = none ↔
      ∀ key ∈ actualKeys, key ∈ expectedKeys ∨ ∃ p ∈ notNeeded, p.name = key) ∧
    (∀ key, (validateIsSubsetRun true actualKeys expectedKeys notNeeded).2
        = some (Err.unexpectedKey key) →
      key ∈ actualKeys ∧ key ∉ expectedKeys ∧ ∀ p ∈ notNeeded, p.name ≠ key) ∧
    ((validateIsSubsetRun true actualKeys expectedKeys notNeeded).2 ≠ none →
      ∃ key, (validateIsSubsetRun true actualKeys expectedKeys notNeeded).2
        = some (Err.unexpectedKey key)) := by
  have h2 : (validateIsSubsetRun true actualKeys expectedKeys notNeeded).2
      = (findUnexpectedKey actualKeys expectedKeys notNeeded).map Err.unexpectedKey := by
    cases hf : findUnexpectedKey actualKeys expectedKeys notNeeded <;>
      simp [validateIsSubsetRun, hf]
  have hpred : ∀ key : String,
      ((!expectedKeys.contains key && !notNeeded.any fun p => p.name == key) = true)
      ↔ (key ∉ expectedKeys ∧ ∀ p ∈ notNeeded, p.name ≠ key) := by
    intro key
    simp [List.any_eq_true]
  refine ⟨?_, ?_, ?_⟩
  · rw [h2, Option.map_eq_none']
    unfold findUnexpectedKey
    rw [List.find?_eq_none]
    constructor
    · intro h key hk
      by_cases he : key ∈ expectedKeys
      · exact Or.inl he
      · right
        by_contra hnone
        push_neg at hnone
        exact h key hk ((hpred key).mpr ⟨he, hnone⟩)
    · intro h key hk hpk
      have hp := (hpred key).mp hpk
      rcases h key hk with he | ⟨p, hpmem, hname⟩
      · exact hp.1 he
      · exact hp.2 p hpmem hname
  · intro key hkey
    rw [h2] at hkey
    obtain ⟨k, hk, hinj⟩ := Option.map_eq_some'.mp hkey
    have hkk : k = key := by
      simpa using hinj
    subst hkk
    have hk' : actualKeys.find?
        (fun key => !expectedKeys.contains key
          && !notNeeded.any fun p => p.name == key) = some k := hk
    have hfind := List.find?_some hk'
    have hp := (hpred k).mp hfind
    exact ⟨List.mem_of_find?_eq_some hk', hp.1, hp.2⟩
  · intro hne
    rw [h2] at hne ⊢
    simp only [Option.map_eq_none', ne_eq] at hne
    cases hf : findUnexpectedKey actualKeys expectedKeys notNeeded
    · exact absurd hf hne
    · exact ⟨_, rfl⟩

/-- Witness for C5: an installed index whose only extra key is a
not-needed package passes subset validation. -/
theorem subset_validation_unexpected_key_witness :
    (validateIsSubsetRun true ["abbrev", "retired"] ["abbrev"]
      [⟨"retired"⟩]).2 = none :=
  (subset_validation_unexpected_key ["abbrev", "retired"] ["abbrev"]
    [⟨"retired"⟩]).1.mpr (by decide)

/-- C6: when the published state was modified less than a week ago, the
run exits immediately with an empty trace — no fetch, no regeneration, no
branch of the decision engine — and no error. -/
theorem stale_guard_exits (env : Env)
    (hfresh : env.nowMs - env.lastModifiedMs < 7 * millisecondsPerDay) :
    main env = ([], none) := by
  have h : isAWeekAfter env.nowMs env.lastModifiedMs = false := by
    rw [isAWeekAfter_spec]
    exact decide_eq_false (not_lt.mpr hfresh.le)
  exact main_stale env h

/-- Witness for C6: a state modified three days ago produces a no-op run. -/
theorem stale_guard_exits_witness : main staleEnv = ([], none) :=
  stale_guard_exits staleEnv (by decide)

/-- C7: when the tag object has a latest entry, the filter keeps that entry
with its original version, and every retained entry of another tag carries
a version different from latest's. -/
theorem filterTags_keeps_latest (tags : Tags) (v : String)
    (h : tagsGet tags "latest" = some v) :
    ("latest", v) ∈ filterTags tags ∧
    ∀ p ∈ filterTags tags, p.1 ≠ "latest" → p.2 ≠ v := by
  obtain ⟨q, hq, hqv⟩ := Option.map_eq_some'.mp h
  have hq1 : q.1 = "latest" := by
    have := List.find?_some hq
    simpa using this
  have hqe : q = ("latest", v) := Prod.ext hq1 hqv
  have hqmem : ("latest", v) ∈ tags := hqe ▸ List.mem_of_find?_eq_some hq
  constructor
  · simp only [filterTags]
    exact List.mem_filter.mpr ⟨hqmem, by simp⟩
  · intro p hp hne hpv
    simp only [filterTags] at hp
    have hcond := (List.mem_filter.mp hp).2
    rw [h] at hcond
    simp only [Bool.or_eq_true] at hcond
    rcases hcond with h1 | h2
    · exact hne (by simpa using h1)
    · rw [hpv] at h2
      simp at h2

/-- Witness for C7: filtering the sample tags keeps the latest entry. -/
theorem filterTags_keeps_latest_witness :
    ("latest", "1.0.0") ∈ filterTags sampleTags :=
  (filterTags_keeps_latest sampleTags "1.0.0" rfl).1

/-- C8: when the tag object has no latest entry, the filter returns its
input unchanged. -/
theorem filterTags_without_latest (tags : Tags)
    (h : "latest" ∉ tags.map Prod.fst) :
    filterTags tags = tags := by
  have hget : tagsGet tags "latest" = none := by
    simp only [tagsGet, Option.map_eq_none']
    apply List.find?_eq_none.mpr
    intro p hp hbeq
    exact h (List.mem_map.mpr ⟨p, hp, by simpa using hbeq⟩)
  simp only [filterTags, hget]
  apply List.filter_eq_self.mpr
  intro p hp
  simp

/-- Witness for C8: filtering tags with no latest entry changes nothing. -/
theorem filterTags_without_latest_witness :
    filterTags noLatestTags = noLatestTags :=
  filterTags_without_latest noLatestTags (by decide)

/-- C9: with equal hashes and the highest tagged version equal to the
published one, the run installs from the registry and performs the full
comparison but issues no upload and no tag operation. -/
theorem noop_branch_validate_only (env : Env)
    (hweek : 7 * millisecondsPerDay < env.nowMs - env.lastModifiedMs)
    (hmaj : env.oldVersion.major = 0) (hmin : env.oldVersion.minor = 1)
    (hsame : env.highestSemverVersion = env.oldVersion)
    (hhash : env.oldContentHash = newContentHash env) :
    Event.install ∈ (main env).1 ∧
    Event.checkDirsFull ∈ (main env).1 ∧
    (∀ tag m d, Event.publishUpload tag m d ∉ (main env).1) ∧
    (∀ p v t, Event.tagVersion p v t ∉ (main env).1) ∧
    main env = (setupTrace env ++ [Event.install, Event.checkDirsFull] ++
        (if env.dirsEqualFull then [Event.writeLogFile] else []),
      if env.dirsEqualFull then none else some Err.dirsNotEqual) := by
  have hw : isAWeekAfter env.nowMs env.lastModifiedMs = true := by
    rw [isAWeekAfter_spec]; exact decide_eq_true hweek
  have heq : env.highestSemverVersion.equals env.oldVersion = true :=
    Semver.equals_iff.mpr hsame
  cases hfull : env.dirsEqualFull
  · rw [main_noop_fail env hw hmaj hmin heq hhash hfull]
    refine ⟨by simp, by simp, ?_, ?_, by simp⟩
    · intro tag m d
      simp [publishUpload_not_mem_setupTrace env tag m d]
    · intro p v t
      simp [tagVersion_not_mem_setupTrace env p v t]
  · rw [main_noop_ok env hw hmaj hmin heq hhash hfull]
    refine ⟨by simp, by simp, ?_, ?_, by simp⟩
    · intro tag m d
      simp [publishUpload_not_mem_setupTrace env tag m d]
    · intro p v t
      simp [tagVersion_not_mem_setupTrace env p v t]

/-- Witness for C9: the concrete unchanged-snapshot run is exactly
install, full comparison and the log write. -/
theorem noop_branch_validate_only_witness :
    main baseEnv = (setupTrace baseEnv ++ [Event.install, Event.checkDirsFull]
        ++ (if baseEnv.dirsEqualFull then [Event.writeLogFile] else []),
      if baseEnv.dirsEqualFull then none else some Err.dirsNotEqual) :=
  (noop_branch_validate_only baseEnv (by decide) rfl rfl rfl rfl).2.2.2.2

/-- C10: every run that passes the staleness guard and both version
asserts first empties the output directory and rewrites the whole bundle
— the manifest carrying the patch-bumped version and the new hash, the
index, the readme — before any branch-specific event, whichever branch is
then taken. -/
theorem bundle_regenerated_every_branch (env : Env)
    (hweek : 7 * millisecondsPerDay < env.nowMs - env.lastModifiedMs)
    (hmaj : env.oldVersion.major = 0) (hmin : env.oldVersion.minor = 1) :
    (∃ rest e, main env = (setupTrace env ++ rest, e)) ∧
    Event.emptyOutput ∈ (main env).1 ∧
    Event.writeManifest (mainManifest env) ∈ (main env).1 ∧
    Event.writeIndex (envRegistry env) ∈ (main env).1 ∧
    Event.writeReadme ∈ (main env).1 ∧
    (mainManifest env).version = s!"0.1.{env.oldVersion.patch + 1}" ∧
    (mainManifest env).typesPublisherContentHash = newContentHash env := by
  have hw : isAWeekAfter env.nowMs env.lastModifiedMs = true := by
    rw [isAWeekAfter_spec]; exact decide_eq_true hweek
  have hsetupPre : ∃ rest e, main env = (setupTrace env ++ rest, e) := by
    cases hb : env.highestSemverVersion.equals env.oldVersion
    · cases hvr : (validateIsSubsetRun env.dirsEqualSubset env.actualIndexKeys
          (envRegistry env).keys env.notNeeded).2
      · exact ⟨_, _, main_promote_ok env hw hmaj hmin hb hvr⟩
      · exact ⟨_, _, main_promote_err env _ hw hmaj hmin hb hvr⟩
    · by_cases hh : env.oldContentHash = newContentHash env
      · cases hfull : env.dirsEqualFull
        · exact ⟨_, _, main_noop_fail env hw hmaj hmin hb hh hfull⟩
        · exact ⟨_, _, main_noop_ok env hw hmaj hmin hb hh hfull⟩
      · cases hfull : env.dirsEqualFull
        · exact ⟨_, _, main_publish_fail env hw hmaj hmin hb hh hfull⟩
        · exact ⟨_, _, main_publish_ok env hw hmaj hmin hb hh hfull⟩
  obtain ⟨rest, e, hmain⟩ := hsetupPre
  refine ⟨⟨rest, e, hmain⟩, ?_, ?_, ?_, ?_, rfl, rfl⟩ <;>
    rw [hmain] <;> simp [setupTrace, generateTrace]

/-- Witness for C10: the concrete unchanged-snapshot run still empties and
rewrites the output bundle. -/
theorem bundle_regenerated_every_branch_witness :
    Event.emptyOutput ∈ (main baseEnv).1 :=
  (bundle_regenerated_every_branch baseEnv (by decide) rfl rfl).2.1

end TypesRegistry
